import Mathlib

/-
  Verification of the session/scenario orchestration engine of social-storm.

  The definitions below are a shallow embedding of the TypeScript source:
  * SessionService (src/unnamed/part_014): daily quota, session creation,
    status updates, duration guardrail.
  * SessionWorker (src/src/workers/SessionWorker.ts): session monitor loop.
  * ScenarioExecutor (src/src/workers/ScenarioExecutor.ts): step interpreter
    and target resolution.
  * ScenarioService (src/src/services/ScenarioService.ts): interaction-flow
    validation.
  * ProfileManager (src/unnamed/part_016): identity lifecycle.
  * SessionRunner (src/src/workers/SessionRunner.ts): session finalization.

  The relational store is modelled as explicit in-memory state; external
  collaborators (browser engine, GoLogin, LLM) are modelled as environments
  of oracle functions, with fallible calls returning Except.
-/

namespace SocialStorm

/-! ## Session data model (src/src/models/Session.ts) -/

inductive SessionStatus
  | running
  | completed
  | failed
  | cancelled
deriving DecidableEq, Repr

/-- One row of the `sessions` table.  Timestamps are milliseconds since the
epoch (`Date.getTime()`); `duration` is in seconds, as stored by the code. -/
structure Session where
  id : Nat
  social_account_id : Nat
  scenario_id : Option Nat
  started_at : Nat
  ended_at : Option Nat
  duration : Option Int
  status : SessionStatus
  actions_count : Nat
deriving DecidableEq, Repr

/-- The `sessions` table plus the SERIAL id counter. -/
structure SessionsDb where
  sessions : List Session
  nextId : Nat
deriving DecidableEq, Repr

/-! ## SessionService (src/unnamed/part_014, lines 88-302) -/

def MIN_SESSION_DURATION_MS : Nat := 8 * 60 * 1000
def MAX_SESSION_DURATION_MS : Nat := 15 * 60 * 1000
def MAX_SESSIONS_PER_DAY : Nat := 3

def MS_PER_DAY : Nat := 86400000

/-- `DATE(started_at)` under the UTC day boundary. -/
def dayOf (t : Nat) : Nat := t / MS_PER_DAY

structure CreateSessionParams where
  socialAccountId : Nat
  scenarioId : Option Nat
deriving DecidableEq, Repr

/-- The count taken by `checkDailyLimit`: sessions of the account whose
`DATE(started_at)` equals the current date and whose status is `running` or
`completed`. -/
def dailyCount (db : SessionsDb) (acct : Nat) (now : Nat) : Nat :=
  (db.sessions.filter (fun s =>
    s.social_account_id == acct &&
    dayOf s.started_at == dayOf now &&
    (s.status == SessionStatus.running || s.status == SessionStatus.completed))).length

/-- `SessionService.checkDailyLimit`. -/
def checkDailyLimit (db : SessionsDb) (acct : Nat) (now : Nat) : Except String Unit :=
  if MAX_SESSIONS_PER_DAY ≤ dailyCount db acct now then
    Except.error "Account has reached the maximum of 3 sessions per day"
  else
    Except.ok ()

/-- `SessionService.createSession`: checks the daily limit, then inserts a
session with `started_at = NOW()`, status `running`, `actions_count = 0`. -/
def createSession (db : SessionsDb) (now : Nat) (p : CreateSessionParams) :
    Except String (Session × SessionsDb) := do
  checkDailyLimit db p.socialAccountId now
  let s : Session :=
    { id := db.nextId
      social_account_id := p.socialAccountId
      scenario_id := p.scenarioId
      started_at := now
      ended_at := none
      duration := none
      status := SessionStatus.running
      actions_count := 0 }
  Except.ok (s, { sessions := db.sessions ++ [s], nextId := db.nextId + 1 })

def findSession (db : SessionsDb) (sid : Nat) : Option Session :=
  db.sessions.find? (fun s => s.id == sid)

/-- `SessionService.getSession`. -/
def getSession (db : SessionsDb) (sid : Nat) : Except String Session :=
  match findSession db sid with
  | some s => Except.ok s
  | none => Except.error "Session not found"

/-- `SessionService.updateSessionStatus`: computes the duration when an end
time is supplied (`Math.floor((endedAt - started_at) / 1000)`), then updates
status, `ended_at` and `duration` unconditionally — there is no guard on the
session's current status. -/
def updateSessionStatus (db : SessionsDb) (sid : Nat) (status : SessionStatus)
    (endedAt : Option Nat) : Except String (Session × SessionsDb) := do
  let duration ←
    match endedAt with
    | some e => do
        let s ← getSession db sid
        pure (some ((Int.ofNat e - Int.ofNat s.started_at).fdiv 1000))
    | none => pure none
  match findSession db sid with
  | none => Except.error "Session not found"
  | some s =>
      let s' : Session := { s with status := status, ended_at := endedAt, duration := duration }
      Except.ok (s',
        { db with sessions := db.sessions.map (fun t => if t.id == sid then s' else t) })

/-- `SessionService.endSession`: `updateSessionStatus` with `new Date()`. -/
def endSession (db : SessionsDb) (sid : Nat) (status : SessionStatus) (now : Nat) :
    Except String (Session × SessionsDb) :=
  updateSessionStatus db sid status (some now)

/-- Result shape of `SessionService.checkSessionDuration`. -/
structure DurationCheck where
  isValid : Bool
  currentDuration : Int
  minDuration : Int
  maxDuration : Int
deriving DecidableEq, Repr

/-- Elapsed seconds since `started_at` as computed by `checkSessionDuration`. -/
def elapsedSeconds (startedAt now : Nat) : Int :=
  (Int.ofNat now - Int.ofNat startedAt).fdiv 1000

/-- `SessionService.checkSessionDuration`, given the session's start time. -/
def durationCheckAt (startedAt now : Nat) : DurationCheck :=
  let cur := elapsedSeconds startedAt now
  { isValid := decide ((MIN_SESSION_DURATION_MS / 1000 : Int) ≤ cur) &&
               decide (cur ≤ (MAX_SESSION_DURATION_MS / 1000 : Int))
    currentDuration := cur
    minDuration := (MIN_SESSION_DURATION_MS / 1000 : Int)
    maxDuration := (MAX_SESSION_DURATION_MS / 1000 : Int) }

/-- `SessionService.checkSessionDuration` (looks the session up first). -/
def checkSessionDuration (db : SessionsDb) (sid : Nat) (now : Nat) :
    Except String DurationCheck := do
  let s ← getSession db sid
  Except.ok (durationCheckAt s.started_at now)

/-! ## SessionWorker monitor loop (src/src/workers/SessionWorker.ts, lines 118-140) -/

/-- The loop's break test: `!durationCheck.isValid && durationCheck.currentDuration
>= durationCheck.maxDuration`. -/
def monitorBreak (check : DurationCheck) : Bool :=
  !check.isValid && decide (check.maxDuration ≤ check.currentDuration)

/-- One worker monitor loop.  `startedAt` is the session's `started_at`,
`workerStart` the worker's `startTime = Date.now()`, `elapsed` the worker-clock
elapsed milliseconds.  Mirrors: `while (Date.now() - startTime < maxDuration)
{ if (elapsed >= minDuration) { check; maybe break } sleep 60000 }`;
returns the worker-clock elapsed time at which the loop exits. -/
def monitorGo (startedAt workerStart elapsed : Nat) : Nat :=
  if elapsed < MAX_SESSION_DURATION_MS then
    if MIN_SESSION_DURATION_MS ≤ elapsed &&
       monitorBreak (durationCheckAt startedAt (workerStart + elapsed)) then
      elapsed
    else
      monitorGo startedAt workerStart (elapsed + 60000)
  else
    elapsed
termination_by MAX_SESSION_DURATION_MS - elapsed
decreasing_by simp only [MAX_SESSION_DURATION_MS] at *; omega

/-- The monitor phase of `SessionWorker.processSession` on its success path:
run the monitor loop for the session, then `endSession(sessionId, 'completed')`.
Returns the loop's exit elapsed time together with the updated session. -/
def monitorAndEnd (db : SessionsDb) (sid : Nat) (workerStart : Nat) :
    Except String (Nat × Session × SessionsDb) := do
  let s ← getSession db sid
  let exitElapsed := monitorGo s.started_at workerStart 0
  let (s', db') ← endSession db sid SessionStatus.completed (workerStart + exitElapsed)
  Except.ok (exitElapsed, s', db')

/-! ## Scenario data model (src/unnamed/part_006) -/

inductive Platform
  | twitter
  | facebook
deriving DecidableEq, Repr

inductive StepAction
  | search
  | like
  | comment
  | reply
  | report
deriving DecidableEq, Repr

inductive EntityType
  | post
  | comment
deriving DecidableEq, Repr

/-- `InteractionFlowStep` (src/unnamed/part_006).  Optional string fields keep
their JavaScript truthiness: an absent field and an empty string are both
falsy.  The unused `filters` passthrough field is omitted. -/
structure InteractionFlowStep where
  step : Nat
  action : StepAction
  entity_type : Option EntityType
  query : Option String
  target : Option String
  generate_comment : Option Bool
deriving DecidableEq, Repr

/-- JavaScript truthiness of an optional string (`!s` is true for `undefined`
and for `""`). -/
def optTruthy : Option String → Bool
  | none => false
  | some s => !(s == "")

/-! ## ScenarioService.validateInteractionFlow
(src/src/services/ScenarioService.ts, lines 200-250) -/

/-- Zod schema check on a typed flow: the only constraint not already enforced
by the types is `step: z.number().int().positive()`. -/
def schemaOk (flow : List InteractionFlowStep) : Bool :=
  flow.all (fun s => 1 ≤ s.step)

/-- The loop `for i, steps[i] !== i + 1` over the sorted step numbers:
`seqCheck i l` holds when `l = [i+1, i+2, ...]`. -/
def seqCheck : Nat → List Nat → Bool
  | _, [] => true
  | i, x :: xs => x == i + 1 && seqCheck (i + 1) xs

/-- The per-step dependency checks of `validateInteractionFlow`. -/
def validateStep (s : InteractionFlowStep) : Except String Unit :=
  if s.action == StepAction.search && !optTruthy s.query then
    Except.error "search action requires query"
  else if (s.action == StepAction.like || s.action == StepAction.comment ||
           s.action == StepAction.reply || s.action == StepAction.report) &&
          !optTruthy s.target && !s.entity_type.isSome then
    Except.error "action requires target or entity_type"
  else if s.action == StepAction.reply && !s.entity_type.isSome then
    Except.error "reply action requires entity_type"
  else
    Except.ok ()

def validateSteps : List InteractionFlowStep → Except String Unit
  | [] => Except.ok ()
  | s :: rest => do
      validateStep s
      validateSteps rest

/-- `ScenarioService.validateInteractionFlow`: schema check, contiguous step
sequence check over the sorted step numbers, per-step dependency checks.  The
platform-specific branches of the source are empty. -/
def validateInteractionFlow (flow : List InteractionFlowStep) (_platform : Platform) :
    Except String Unit := do
  if !schemaOk flow then
    Except.error "Invalid interaction flow"
  else do
    let sorted := (flow.map (fun s => s.step)).insertionSort (· ≤ ·)
    if !seqCheck 0 sorted then
      Except.error "Step sequence must be consecutive starting from 1"
    else
      validateSteps flow

/-! ## Step results and target resolution
(src/src/workers/ScenarioExecutor.ts, lines 16-20 and 378-421) -/

/-- `Post` (src/src/adapters/interfaces/IPlatformAdapter.ts); the optional
metadata fields are unused by the interpreter and omitted. -/
structure Post where
  id : String
  url : String
  content : String
deriving DecidableEq, Repr

structure Comment where
  id : String
  url : String
  content : String
deriving DecidableEq, Repr

/-- `StepResult`: the optional `posts` / `comments` fields.  `none` models an
absent field; `some []` models a present empty array (which is truthy in
JavaScript but yields no element at any index). -/
structure StepResult where
  posts : Option (List Post)
  comments : Option (List Comment)
deriving DecidableEq, Repr

/-- The possible results of `getStepTarget` (`Post | Comment | null`). -/
inductive Entity
  | post (p : Post)
  | comment (c : Comment)
deriving DecidableEq, Repr

def Entity.url : Entity → String
  | Entity.post p => p.url
  | Entity.comment c => c.url

def Entity.content : Entity → String
  | Entity.post p => p.content
  | Entity.comment c => c.content

/-- The in-memory `stepResults: Map<number, StepResult>`, as its entry list in
insertion order (JavaScript `Map` iterates in insertion order). -/
abbrev StepResultMap := List (Nat × StepResult)

/-- `Map.set`: replaces in place when the key exists, appends otherwise. -/
def mapSet (m : StepResultMap) (k : Nat) (v : StepResult) : StepResultMap :=
  if m.any (fun e => e.1 == k) then
    m.map (fun e => if e.1 == k then (k, v) else e)
  else
    m ++ [(k, v)]

inductive ResultKind
  | searchResults
  | commentsKind
deriving DecidableEq, Repr

/-- Strip an exact prefix from a character list. -/
def dropPre : List Char → List Char → Option (List Char)
  | [], s => some s
  | _ :: _, [] => none
  | a :: as, b :: bs => if a = b then dropPre as bs else none

/-- Parse `\d+]` at the end of the remaining characters: at least one digit,
then a closing bracket, then nothing. -/
def parseIdx : List Char → Nat → Bool → Option Nat
  | [], _, _ => none
  | c :: rest, acc, seen =>
      if c.isDigit then
        parseIdx rest (acc * 10 + (c.toNat - 48)) true
      else if c = ']' && rest = [] && seen then
        some acc
      else
        none

/-- The anchored regex `^(search_results|comments)\[(\d+)\]$`. -/
def parseTarget (t : String) : Option (ResultKind × Nat) :=
  match dropPre "search_results[".toList t.toList with
  | some rest => (parseIdx rest 0 false).map (fun i => (ResultKind.searchResults, i))
  | none =>
      match dropPre "comments[".toList t.toList with
      | some rest => (parseIdx rest 0 false).map (fun i => (ResultKind.commentsKind, i))
      | none => none

/-- One iteration of the explicit-reference scan: `result.posts &&
result.posts[index]` (resp. comments) — the entry's list of the requested
kind must be present and have a value at the requested index. -/
def entryHit (kind : ResultKind) (idx : Nat) (r : StepResult) : Option Entity :=
  match kind with
  | ResultKind.searchResults => (r.posts.bind (fun ps => ps[idx]?)).map Entity.post
  | ResultKind.commentsKind => (r.comments.bind (fun cs => cs[idx]?)).map Entity.comment

/-- The explicit-reference scan of `getStepTarget`: walk the map entries in
iteration order, break at the first entry whose step number is not strictly
below the current step, and return the first entry of the requested kind that
has a value at the requested index. -/
def findExplicitTarget (entries : StepResultMap) (cur : Nat) (kind : ResultKind)
    (idx : Nat) : Option Entity :=
  match entries with
  | [] => none
  | (n, r) :: rest =>
      if cur ≤ n then
        none
      else
        match entryHit kind idx r with
        | some e => some e
        | none => findExplicitTarget rest cur kind idx

/-- The fallback of `getStepTarget`: scan the map values in reverse iteration
order and return the first non-empty post list's head (or, for reply steps,
the first non-empty comment list's head). -/
def fallbackTarget (entries : StepResultMap) (isComment : Bool) : Option Entity :=
  if isComment then
    entries.reverse.findSome? (fun e =>
      match e.2.comments with
      | some cs => (cs.head?).map Entity.comment
      | none => none)
  else
    entries.reverse.findSome? (fun e =>
      match e.2.posts with
      | some ps => (ps.head?).map Entity.post
      | none => none)

/-- `ScenarioExecutor.getStepTarget`. -/
def getStepTarget (entries : StepResultMap) (step : InteractionFlowStep)
    (isComment : Bool) : Option Entity :=
  let explicitRes : Option Entity :=
    match step.target with
    | some t =>
        if t == "" then none
        else
          match parseTarget t with
          | some (kind, idx) => findExplicitTarget entries step.step kind idx
          | none => none
    | none => none
  match explicitRes with
  | some e => some e
  | none => fallbackTarget entries isComment

/-- Target resolution as the spec words it: restrict to entries with step
numbers strictly below the current step (the map being in ascending key
order), return the first entry of the matching kind with a value at the
requested index, and otherwise fall back to the most recent prior result.
Used to compare `getStepTarget` against the specification sentence. -/
def specResolveTarget (entries : StepResultMap) (step : InteractionFlowStep)
    (isComment : Bool) : Option Entity :=
  let explicitRes : Option Entity :=
    match step.target with
    | some t =>
        if t == "" then none
        else
          match parseTarget t with
          | some (kind, idx) =>
              (entries.filter (fun e => e.1 < step.step)).findSome?
                (fun e => entryHit kind idx e.2)
          | none => none
    | none => none
  match explicitRes with
  | some e => some e
  | none => fallbackTarget entries isComment

/-! ## Step interpreter (src/src/workers/ScenarioExecutor.ts, lines 156-376)

The browser/LLM/database collaborators are modelled as an environment of
oracle functions per step number; a fallible call returns `Except`. -/

/-- `InteractionResult` (src/src/adapters/interfaces/IPlatformAdapter.ts),
restricted to the fields the interpreter records. -/
structure InteractionResult where
  success : Bool
  entityId : String
  entityType : EntityType
  entityUrl : String
  errorMessage : Option String
deriving DecidableEq, Repr

/-- One row appended by `SessionWorker.recordInteraction`, restricted to the
fields the interpreter determines. -/
structure InteractionRec where
  action : StepAction
  entityType : EntityType
  success : Bool
  errorMessage : Option String
  commentText : Option String
  stepSequence : Nat
deriving DecidableEq, Repr

/-- The external behavior visible to one step: the platform adapter calls
(`searchPosts`, `likePost` / `commentOnPost` / `replyToComment` /
`reportPost`), LLM generation, and whether the interaction insert succeeds.
An `Except.error` models the call throwing. -/
structure StepEnv where
  searchRes : String → Except String (List Post)
  actionRes : String → Except String InteractionResult
  genRes : String → Except String String
  recordOk : Bool

/-- The interpreter state for one scenario execution: the `stepResults` map,
the recorded interactions, and the log of step numbers whose execution was
entered (the `Executing step` log line at the top of `executeStep`). -/
structure ExecState where
  stepResults : StepResultMap
  interactions : List InteractionRec
  attempted : List Nat
deriving DecidableEq, Repr

/-- `SessionWorker.recordInteraction` as seen from the interpreter: appends an
interaction row (and increments the action count) or throws. -/
def recordInteraction (env : Nat → StepEnv) (stepNum : Nat) (action : StepAction)
    (entityType : EntityType) (r : InteractionResult) (commentText : Option String)
    (st : ExecState) : Except String ExecState :=
  if (env stepNum).recordOk then
    Except.ok { st with interactions := st.interactions ++
      [{ action := action
         entityType := entityType
         success := r.success
         errorMessage := r.errorMessage
         commentText := commentText
         stepSequence := stepNum }] }
  else
    Except.error "Failed to record interaction"

/-- `ScenarioExecutor.executeSearchStep`. -/
def executeSearchStep (env : Nat → StepEnv) (step : InteractionFlowStep)
    (st : ExecState) : Except String ExecState :=
  if !optTruthy step.query then
    Except.error "Search step requires query"
  else do
    let posts ← (env step.step).searchRes (step.query.getD "")
    let res : StepResult := { posts := some posts, comments := none }
    Except.ok { st with stepResults := mapSet st.stepResults step.step res }

/-- `ScenarioExecutor.executeLikeStep`. -/
def executeLikeStep (env : Nat → StepEnv) (step : InteractionFlowStep)
    (st : ExecState) : Except String ExecState :=
  match getStepTarget st.stepResults step false with
  | none => Except.error "Like step requires target"
  | some target => do
      let r ← (env step.step).actionRes target.url
      recordInteraction env step.step StepAction.like
        (step.entity_type.getD EntityType.post) r none st

/-- `ScenarioExecutor.executeCommentStep`: requires `generate_comment` to be
true (literal comment text is rejected), generates the text, comments, then
records. -/
def executeCommentStep (env : Nat → StepEnv) (step : InteractionFlowStep)
    (st : ExecState) : Except String ExecState :=
  match getStepTarget st.stepResults step false with
  | none => Except.error "Comment step requires target"
  | some target =>
      match step.generate_comment with
      | some true => do
          let text ← (env step.step).genRes target.content
          let r ← (env step.step).actionRes target.url
          recordInteraction env step.step StepAction.comment
            (step.entity_type.getD EntityType.post) r (some text) st
      | _ => Except.error "Comment step requires generate_comment to be true"

/-- `ScenarioExecutor.executeReplyStep` (target resolution with
`isComment = true`). -/
def executeReplyStep (env : Nat → StepEnv) (step : InteractionFlowStep)
    (st : ExecState) : Except String ExecState :=
  match getStepTarget st.stepResults step true with
  | none => Except.error "Reply step requires target"
  | some target =>
      match step.generate_comment with
      | some true => do
          let text ← (env step.step).genRes target.content
          let r ← (env step.step).actionRes target.url
          recordInteraction env step.step StepAction.reply
            (step.entity_type.getD EntityType.comment) r (some text) st
      | _ => Except.error "Reply step requires generate_comment to be true"

/-- `ScenarioExecutor.executeReportStep`. -/
def executeReportStep (env : Nat → StepEnv) (step : InteractionFlowStep)
    (st : ExecState) : Except String ExecState :=
  match getStepTarget st.stepResults step false with
  | none => Except.error "Report step requires target"
  | some target => do
      let r ← (env step.step).actionRes target.url
      recordInteraction env step.step StepAction.report
        (step.entity_type.getD EntityType.post) r none st

/-- The body of `ScenarioExecutor.executeStep`'s `try` block: dispatch on the
action kind. -/
def executeStepBody (env : Nat → StepEnv) (step : InteractionFlowStep)
    (st : ExecState) : Except String ExecState :=
  match step.action with
  | StepAction.search => executeSearchStep env step st
  | StepAction.like => executeLikeStep env step st
  | StepAction.comment => executeCommentStep env step st
  | StepAction.reply => executeReplyStep env step st
  | StepAction.report => executeReportStep env step st

/-- `ScenarioExecutor.executeStep`: log the step (`attempted`), run the body,
catch any exception and continue — a failing step leaves the scenario state
unchanged apart from the log entry. -/
def executeStep (env : Nat → StepEnv) (step : InteractionFlowStep)
    (st : ExecState) : ExecState :=
  let st1 := { st with attempted := st.attempted ++ [step.step] }
  match executeStepBody env step st1 with
  | Except.ok st' => st'
  | Except.error _ => st1

/-- The step loop of `executeScenario`: every step is executed in order. -/
def runFlow (env : Nat → StepEnv) (flow : List InteractionFlowStep)
    (st : ExecState) : ExecState :=
  flow.foldl (fun s stp => executeStep env stp s) st

/-- A fresh scenario execution: `stepResults.clear()` then the step loop. -/
def executeScenarioSteps (env : Nat → StepEnv) (flow : List InteractionFlowStep) :
    ExecState :=
  runFlow env flow { stepResults := [], interactions := [], attempted := [] }

/-! ## Identity lifecycle: ProfileManager (src/unnamed/part_016, lines 26-284) -/

inductive ProfileStatus
  | ACTIVE
  | EXPIRED
  | BANNED
  | DELETED
deriving DecidableEq, Repr

/-- `FingerprintConfig` (src/src/models/ProfileRecord.ts); every field is
optional in the source. -/
structure FingerprintConfig where
  os : Option String
  browser : Option String
  timezone : Option String
  language : Option String
deriving DecidableEq, Repr

/-- One row of the `gologin_profiles` table (fields the lifecycle logic
reads). -/
structure ProfileRecord where
  id : Nat
  socialAccountId : Nat
  gologinProfileId : String
  status : ProfileStatus
  fingerprintConfig : Option FingerprintConfig
  createdAt : Nat
deriving DecidableEq, Repr

/-- The `gologin_profiles` table, the SERIAL id counter, and the clock used
for `created_at = NOW()`. -/
structure ProfilesDb where
  profiles : List ProfileRecord
  nextId : Nat
  now : Nat
deriving DecidableEq, Repr

/-- Outcome of `goLogin.getProfile`: found, a "not found" error (message
containing `not found` or HTTP 404), or any other error. -/
inductive ProbeResult
  | found
  | errNotFound
  | errOther
deriving DecidableEq, Repr

/-- The external GoLogin service: the liveness probe, the external id that
`goLogin.create` returns for the n-th created profile, and the random
fingerprint choices. -/
structure GoLoginEnv where
  probe : String → ProbeResult
  createId : Nat → String
  randomOS : String
  randomTimezone : String

/-- `ProfileManager.generateDefaultFingerprintConfig`. -/
def generateDefaultFingerprintConfig (env : GoLoginEnv) : FingerprintConfig :=
  { os := some env.randomOS
    browser := some "chrome"
    timezone := some env.randomTimezone
    language := some "en-US" }

/-- `SELECT * FROM gologin_profiles WHERE social_account_id = $1 AND status =
'ACTIVE'`, taking the first returned row (table order). -/
def firstActiveProfile (db : ProfilesDb) (acct : Nat) : Option ProfileRecord :=
  db.profiles.find? (fun p =>
    p.socialAccountId == acct && p.status == ProfileStatus.ACTIVE)

/-- `SELECT * ... WHERE social_account_id = $1 ORDER BY created_at DESC LIMIT
1`: the account's most recently created profile record. -/
def mostRecentProfile (db : ProfilesDb) (acct : Nat) : Option ProfileRecord :=
  (db.profiles.filter (fun p => p.socialAccountId == acct)).foldl
    (fun best p =>
      match best with
      | none => some p
      | some b => if b.createdAt < p.createdAt then some p else some b)
    none

/-- `ProfileManager.ensureProfileForUser`: reuse an existing ACTIVE profile if
one exists; otherwise inherit the most recent fingerprint config (or generate
one), create the external profile, and persist a new ACTIVE row.  The
external `goLogin.create` call is abstracted to the id it returns. -/
def ensureProfileForUser (env : GoLoginEnv) (acct : Nat) (db : ProfilesDb) :
    ProfileRecord × ProfilesDb :=
  match firstActiveProfile db acct with
  | some p => (p, db)
  | none =>
      let cfg : FingerprintConfig :=
        match mostRecentProfile db acct with
        | some p =>
            match p.fingerprintConfig with
            | some c => c
            | none => generateDefaultFingerprintConfig env
        | none => generateDefaultFingerprintConfig env
      let newP : ProfileRecord :=
        { id := db.nextId
          socialAccountId := acct
          gologinProfileId := env.createId db.nextId
          status := ProfileStatus.ACTIVE
          fingerprintConfig := some cfg
          createdAt := db.now }
      (newP, { profiles := db.profiles ++ [newP], nextId := db.nextId + 1, now := db.now + 1 })

/-- `ProfileManager.markProfileAsExpired`. -/
def markProfileAsExpired (db : ProfilesDb) (pid : Nat) : ProfilesDb :=
  { db with profiles := db.profiles.map (fun p =>
      if p.id == pid then { p with status := ProfileStatus.EXPIRED } else p) }

/-- `ProfileManager.markProfileAsBanned`. -/
def markProfileAsBanned (db : ProfilesDb) (pid : Nat) : ProfilesDb :=
  { db with profiles := db.profiles.map (fun p =>
      if p.id == pid then { p with status := ProfileStatus.BANNED } else p) }

/-- `ProfileManager.getValidProfileForUser`: looks up the most recently
created record; BANNED/DELETED records trigger `ensureProfileForUser`;
ACTIVE records are probed against GoLogin, and a "not found" response marks
them EXPIRED and triggers `ensureProfileForUser`; any other record (in
particular an EXPIRED one) falls through to `return profile`. -/
def getValidProfileForUser (env : GoLoginEnv) (acct : Nat) (db : ProfilesDb) :
    ProfileRecord × ProfilesDb :=
  match mostRecentProfile db acct with
  | none => ensureProfileForUser env acct db
  | some p =>
      if p.status == ProfileStatus.BANNED || p.status == ProfileStatus.DELETED then
        ensureProfileForUser env acct db
      else if p.status == ProfileStatus.ACTIVE then
        match env.probe p.gologinProfileId with
        | ProbeResult.errNotFound =>
            ensureProfileForUser env acct (markProfileAsExpired db p.id)
        | _ => (p, db)
      else
        (p, db)

/-! ## Session finalization: SessionRunner.completeSession
(src/src/workers/SessionRunner.ts, lines 173-229) -/

/-- Lowercase a string (`error.message.toLowerCase()`). -/
def lowerStr (s : String) : String := String.mk (s.toList.map Char.toLower)

def isPre : List Char → List Char → Bool
  | [], _ => true
  | _ :: _, [] => false
  | a :: as, b :: bs => a == b && isPre as bs

/-- `hay.includes(needle)` on character lists. -/
def hasSub (needle : List Char) : List Char → Bool
  | [] => isPre needle []
  | b :: bs => isPre needle (b :: bs) || hasSub needle bs

def banIndicators : List String :=
  ["banned", "suspended", "blocked", "account disabled", "403", "forbidden"]

/-- `banIndicators.some((indicator) => errorMessage.includes(indicator))`
applied to the lowercased error message. -/
def banIndicator (msg : String) : Bool :=
  banIndicators.any (fun ind => hasSub ind.toList (lowerStr msg).toList)

/-- The sub-steps of `completeSession`, in order of appearance. -/
inductive FinalizeEvent
  | logErrorEvt
  | snapshotEvt
  | markBannedEvt
  | logEndEvt
  | stopEvt
deriving DecidableEq, Repr

/-- Inputs to `completeSession`: the context fields it branches on (profile
id, the configured GoLogin token, the optional error) and, for each fallible
sub-step, whether that call throws. -/
structure FinalizeInput where
  profileId : Nat
  hasToken : Bool
  error : Option String
  logErrorThrows : Bool
  snapshotThrows : Bool
  banMarkThrows : Bool
  logEndThrows : Bool
  stopThrows : Bool

/-- The `try` block of `completeSession`: log the session error when present,
capture a snapshot when `profileId > 0` (its own failure is swallowed by an
inner catch), mark the profile BANNED when an error with a ban indicator is
present and `profileId > 0` and a token is configured, then log session end.
Returns the sub-steps that were invoked and whether the block threw. -/
def completeSessionBody (inp : FinalizeInput) : List FinalizeEvent × Bool :=
  let ev1 := if inp.error.isSome then [FinalizeEvent.logErrorEvt] else []
  if inp.error.isSome && inp.logErrorThrows then
    (ev1, true)
  else
    let ev2 := ev1 ++ (if 0 < inp.profileId then [FinalizeEvent.snapshotEvt] else [])
    let doBan := inp.error.isSome && decide (0 < inp.profileId) && inp.hasToken &&
      (match inp.error with
       | some m => banIndicator m
       | none => false)
    let ev3 := ev2 ++ (if doBan then [FinalizeEvent.markBannedEvt] else [])
    if doBan && inp.banMarkThrows then
      (ev3, true)
    else
      (ev3 ++ [FinalizeEvent.logEndEvt], inp.logEndThrows)

/-- `SessionRunner.completeSession`: the `try` block (whose exception the
`catch` swallows) followed by the `finally` block, which always calls
`stop()` (and swallows `stop`'s own failure).  Returns the trace of invoked
sub-steps. -/
def completeSession (inp : FinalizeInput) : List FinalizeEvent :=
  (completeSessionBody inp).1 ++ [FinalizeEvent.stopEvt]

/-! ## Claim-side predicates and concrete inputs used by the theorems -/

/-- The validity condition of claim C9, following its words: step numbers are
exactly the contiguous sequence `1..N` (no gaps or duplicates), every search
step has a (truthy) query, every like/comment/reply/report step has an
explicit target or an entity type, and every reply step has an entity type. -/
def claimFlowOk (flow : List InteractionFlowStep) : Prop :=
  List.Perm (flow.map (fun s => s.step)) (List.range' 1 flow.length) ∧
  ∀ s ∈ flow,
    (s.action = StepAction.search → optTruthy s.query = true) ∧
    ((s.action = StepAction.like ∨ s.action = StepAction.comment ∨
      s.action = StepAction.reply ∨ s.action = StepAction.report) →
      optTruthy s.target = true ∨ s.entity_type.isSome = true) ∧
    (s.action = StepAction.reply → s.entity_type.isSome = true)

/-- Well-formedness of the profiles table: row ids are below the SERIAL
counter and are pairwise distinct. -/
def ProfilesDbWF (db : ProfilesDb) : Prop :=
  (∀ r ∈ db.profiles, r.id < db.nextId) ∧
  (db.profiles.map (fun p => p.id)).Nodup

/-- A concrete GoLogin environment: every probe succeeds, external ids are
numbered, fixed random fingerprint draws. -/
def envDefault : GoLoginEnv :=
  { probe := fun _ => ProbeResult.found
    createId := fun n => "ext-" ++ toString n
    randomOS := "win"
    randomTimezone := "America/New_York" }

/-- Older ACTIVE profile of account 7. -/
def profActive : ProfileRecord :=
  { id := 1, socialAccountId := 7, gologinProfileId := "g-1",
    status := ProfileStatus.ACTIVE, fingerprintConfig := none, createdAt := 0 }

/-- Most recently created profile of account 7, BANNED. -/
def profBanned : ProfileRecord :=
  { id := 2, socialAccountId := 7, gologinProfileId := "g-2",
    status := ProfileStatus.BANNED, fingerprintConfig := none, createdAt := 1 }

/-- Profiles table whose most recent record for account 7 is BANNED while an
older ACTIVE record exists. -/
def dbBanned : ProfilesDb :=
  { profiles := [profActive, profBanned], nextId := 3, now := 2 }

/-- Sole profile of account 7, EXPIRED (e.g. just marked after a launch
failure). -/
def profExpired : ProfileRecord :=
  { id := 1, socialAccountId := 7, gologinProfileId := "g-1",
    status := ProfileStatus.EXPIRED, fingerprintConfig := none, createdAt := 0 }

/-- Profiles table whose most recent (and only) record for account 7 is
EXPIRED. -/
def dbExpired : ProfilesDb :=
  { profiles := [profExpired], nextId := 2, now := 1 }

def postA : Post := { id := "A", url := "urlA", content := "contentA" }
def postB : Post := { id := "B", url := "urlB", content := "contentB" }
def commentC : Comment := { id := "C", url := "urlC", content := "contentC" }

/-- The StepResultMap `{1: {posts:[A,B]}, 3: {comments:[C]}}` of claim C4. -/
def exampleEntries : StepResultMap :=
  [(1, { posts := some [postA, postB], comments := none }),
   (3, { posts := none, comments := some [commentC] })]

/-- A step numbered 4 with the given explicit target. -/
def step4With (t : String) : InteractionFlowStep :=
  { step := 4, action := StepAction.like, entity_type := some EntityType.post,
    query := none, target := some t, generate_comment := none }

/-- A step environment for steps that are not exercised. -/
def stepEnvIdle : StepEnv :=
  { searchRes := fun _ => Except.error "unused"
    actionRes := fun _ => Except.error "unused"
    genRes := fun _ => Except.error "unused"
    recordOk := true }

def postP : Post := { id := "P", url := "urlP", content := "contentP" }

/-- The failed adapter result of the C7 example's like step. -/
def failedLikeResult : InteractionResult :=
  { success := false, entityId := "", entityType := EntityType.post,
    entityUrl := "urlP", errorMessage := some "element not found" }

/-- The successful adapter result of the C7 example's comment step. -/
def okCommentResult : InteractionResult :=
  { success := true, entityId := "P", entityType := EntityType.post,
    entityUrl := "urlP", errorMessage := none }

/-- Environment for the C7 example: step 1's search returns `[postP]`,
step 2's platform action fails (the adapter reports `success: false`),
step 3's generation and platform action succeed. -/
def exampleEnv : Nat → StepEnv
  | 1 => { stepEnvIdle with searchRes := fun _ => Except.ok [postP] }
  | 2 => { stepEnvIdle with actionRes := fun _ => Except.ok failedLikeResult }
  | 3 => { stepEnvIdle with
            genRes := fun _ => Except.ok "nice post",
            actionRes := fun _ => Except.ok okCommentResult }
  | _ => stepEnvIdle

/-- The flow `[search(ok), like(fails), comment(ok)]` of claim C7. -/
def exampleFlow : List InteractionFlowStep :=
  [{ step := 1, action := StepAction.search, entity_type := none,
     query := some "technology", target := none, generate_comment := none },
   { step := 2, action := StepAction.like, entity_type := some EntityType.post,
     query := none, target := none, generate_comment := none },
   { step := 3, action := StepAction.comment, entity_type := some EntityType.post,
     query := none, target := none, generate_comment := some true }]

/-- Sessions table holding one finished (`completed`) session, id 1. -/
def dbCompleted : SessionsDb :=
  { sessions := [{ id := 1, social_account_id := 7, scenario_id := none,
                   started_at := 0, ended_at := some 1000, duration := some 1,
                   status := SessionStatus.completed, actions_count := 2 }],
    nextId := 2 }

/-- Finalization input of a Chrome-mode session (`profileId = 0`) that failed
with a ban-indicating error. -/
def inpChrome : FinalizeInput :=
  { profileId := 0, hasToken := true, error := some "banned",
    logErrorThrows := false, snapshotThrows := false, banMarkThrows := false,
    logEndThrows := false, stopThrows := false }

/-- A running session that started at time 0 (same instant the worker's
monitor loop starts). -/
def sessionRunning : Session :=
  { id := 1, social_account_id := 7, scenario_id := none, started_at := 0,
    ended_at := none, duration := none, status := SessionStatus.running,
    actions_count := 0 }

/-- Sessions table holding only `sessionRunning`. -/
def dbRunning : SessionsDb := { sessions := [sessionRunning], nextId := 2 }

/-- The row produced by `updateSessionStatus` from the found session: the
requested status, the supplied end time, and the derived duration. -/
def applyUpdate (s : Session) (status : SessionStatus) (endedAt : Option Nat) : Session :=
  { s with
    status := status
    ended_at := endedAt
    duration := endedAt.map (fun e => (Int.ofNat e - Int.ofNat s.started_at).fdiv 1000) }

/-! # Theorems -/

theorem createSession_error (db : SessionsDb) (now : Nat) (p : CreateSessionParams)
    (h : MAX_SESSIONS_PER_DAY ≤ dailyCount db p.socialAccountId now) :
    createSession db now p =
      Except.error "Account has reached the maximum of 3 sessions per day" := by
  unfold createSession checkDailyLimit
  simp [h, Bind.bind, Except.bind]

theorem createSession_success (db : SessionsDb) (now : Nat) (p : CreateSessionParams)
    (h : ¬ MAX_SESSIONS_PER_DAY ≤ dailyCount db p.socialAccountId now) :
    createSession db now p =
      Except.ok ({ id := db.nextId, social_account_id := p.socialAccountId,
                   scenario_id := p.scenarioId, started_at := now, ended_at := none,
                   duration := none, status := SessionStatus.running, actions_count := 0 },
                 { sessions := db.sessions ++
                     [{ id := db.nextId, social_account_id := p.socialAccountId,
                        scenario_id := p.scenarioId, started_at := now, ended_at := none,
                        duration := none, status := SessionStatus.running, actions_count := 0 }],
                   nextId := db.nextId + 1 }) := by
  unfold createSession checkDailyLimit
  simp [h, Bind.bind, Except.bind]

/-- C1: `createSession` fails with the quota error exactly when the account
already has at least 3 sessions in the current calendar day whose status is
`running` or `completed` (sessions in `failed` status are not counted);
otherwise it persists and returns a new session in status `running` with
action count 0. -/
theorem C1_createSession_quota (db : SessionsDb) (now : Nat) (p : CreateSessionParams) :
    ((createSession db now p).isOk = true ↔
      dailyCount db p.socialAccountId now < MAX_SESSIONS_PER_DAY) ∧
    (∀ s db', createSession db now p = Except.ok (s, db') →
      s.status = SessionStatus.running ∧ s.actions_count = 0 ∧ s.started_at = now ∧
      s.social_account_id = p.socialAccountId ∧ db'.sessions = db.sessions ++ [s]) := by
  by_cases h : MAX_SESSIONS_PER_DAY ≤ dailyCount db p.socialAccountId now
  · rw [createSession_error db now p h]
    constructor
    · simp [Except.isOk, Except.toBool]
      omega
    · intro s db' heq
      exact absurd heq (by simp)
  · rw [createSession_success db now p h]
    constructor
    · simp [Except.isOk, Except.toBool]
      omega
    · intro s db' heq
      cases heq
      refine ⟨rfl, rfl, rfl, rfl, rfl⟩

/-- Witness for C1 at a concrete input: an empty history admits a session. -/
theorem C1_createSession_quota_witness :
    (⟨0, 7, none, 5, none, none, SessionStatus.running, 0⟩ : Session).status =
        SessionStatus.running ∧
    (⟨0, 7, none, 5, none, none, SessionStatus.running, 0⟩ : Session).actions_count = 0 ∧
    (⟨0, 7, none, 5, none, none, SessionStatus.running, 0⟩ : Session).started_at = 5 ∧
    (⟨0, 7, none, 5, none, none, SessionStatus.running, 0⟩ : Session).social_account_id = 7 ∧
    (⟨[(⟨0, 7, none, 5, none, none, SessionStatus.running, 0⟩ : Session)], 1⟩ :
        SessionsDb).sessions =
      (⟨[], 0⟩ : SessionsDb).sessions ++
        [(⟨0, 7, none, 5, none, none, SessionStatus.running, 0⟩ : Session)] :=
  (C1_createSession_quota ⟨[], 0⟩ 5 ⟨7, none⟩).2 _ _ rfl

/-- C10: `validateInteractionFlow` accepts the empty step list on every
platform. -/
theorem C10_empty_flow_accepted (platform : Platform) :
    validateInteractionFlow [] platform = Except.ok () := rfl

theorem find?_map_update (l : List Session) (sid : Nat) (s s' : Session)
    (h : l.find? (fun t => t.id == sid) = some s) (h2 : (s'.id == sid) = true) :
    (l.map (fun t => if t.id == sid then s' else t)).find? (fun t => t.id == sid) =
      some s' := by
  induction l with
  | nil => simp at h
  | cons t ts ih =>
      by_cases ht : (t.id == sid) = true
      · have hif : (if (t.id == sid) = true then s' else t) = s' := if_pos ht
        simp only [List.map_cons, hif]
        exact List.find?_cons_of_pos _ h2
      · have hif : (if (t.id == sid) = true then s' else t) = t := if_neg (by simp [ht])
        rw [List.find?_cons_of_neg _ (by simp [ht])] at h
        simp only [List.map_cons, hif]
        rw [List.find?_cons_of_neg _ (by simp [ht])]
        exact ih h

/-- C2 counterexample: a session in the terminal status `completed` is moved
back to `running` by a further `updateSessionStatus` call — the code places
no guard on the current status. -/
theorem C2_counterexample :
    (findSession dbCompleted 1).map Session.status = some SessionStatus.completed ∧
    (updateSessionStatus dbCompleted 1 SessionStatus.running none).toOption.map
        (fun r => r.1.status) = some SessionStatus.running := by
  constructor <;> rfl

theorem updateSessionStatus_found (db : SessionsDb) (sid : Nat) (status : SessionStatus)
    (endedAt : Option Nat) (s : Session) (h : findSession db sid = some s) :
    updateSessionStatus db sid status endedAt =
      Except.ok (applyUpdate s status endedAt,
        ⟨db.sessions.map (fun t => if t.id == sid then applyUpdate s status endedAt else t),
         db.nextId⟩) := by
  cases endedAt <;>
    simp [updateSessionStatus, getSession, h, applyUpdate,
      Bind.bind, Except.bind, pure, Except.pure]

/-- C2 (amended): `updateSessionStatus` (and hence `endSession`) sets the
requested status unconditionally whenever the session exists — there is no
guard on the current status, so a session in a terminal status can be taken
back to `running` or to another terminal status by a later call. -/
theorem C2_update_no_guard (db : SessionsDb) (sid : Nat) (status : SessionStatus)
    (endedAt : Option Nat) (s : Session) (h : findSession db sid = some s) :
    ∃ s' db', updateSessionStatus db sid status endedAt = Except.ok (s', db') ∧
      s'.status = status ∧ s'.id = s.id ∧ findSession db' sid = some s' := by
  have hid : (s.id == sid) = true := by
    have h2 : List.find? (fun t => t.id == sid) db.sessions = some s := by
      simpa [findSession] using h
    simpa using List.find?_some h2
  refine ⟨applyUpdate s status endedAt, _, updateSessionStatus_found db sid status endedAt s h,
    rfl, rfl, ?_⟩
  show (db.sessions.map (fun t => if t.id == sid then applyUpdate s status endedAt else t)).find?
      (fun t => t.id == sid) = some (applyUpdate s status endedAt)
  exact find?_map_update db.sessions sid s _ (by simpa [findSession] using h)
    (by simpa [applyUpdate] using hid)

/-- Witness for C2 at a concrete input: the completed session of
`dbCompleted` is overwritten with status `failed` by a later call. -/
theorem C2_update_no_guard_witness :
    ∃ s' db', updateSessionStatus dbCompleted 1 SessionStatus.failed (some 2000) =
        Except.ok (s', db') ∧
      s'.status = SessionStatus.failed ∧
      s'.id = (⟨1, 7, none, 0, some 1000, some 1,
        SessionStatus.completed, 2⟩ : Session).id ∧
      findSession db' 1 = some s' :=
  C2_update_no_guard dbCompleted 1 SessionStatus.failed (some 2000)
    ⟨1, 7, none, 0, some 1000, some 1, SessionStatus.completed, 2⟩ rfl

/-- C8 counterexample: in Chrome mode (`profileId = 0`) a session failing
with the message `banned` — which the ban-indicator scan matches — does not
get its identity marked BANNED, contradicting the claim's "marks the
session's identity BANNED exactly when a finalization error with a ban
indicator is present". -/
theorem C8_counterexample :
    inpChrome.error = some "banned" ∧ banIndicator "banned" = true ∧
    FinalizeEvent.markBannedEvt ∉ completeSession inpChrome := by
  refine ⟨rfl, by decide, by decide⟩

/-- C8 (amended): `completeSession` always invokes the browser-session
release (`stop`), whatever sub-steps throw; and it marks the identity BANNED
exactly when a finalization error whose lowercased message contains a ban
indicator is present, the session has a real profile (`profileId > 0`), a
GoLogin token is configured, and the error-logging sub-step did not itself
throw. -/
theorem C8_finalize (inp : FinalizeInput) :
    FinalizeEvent.stopEvt ∈ completeSession inp ∧
    (FinalizeEvent.markBannedEvt ∈ completeSession inp ↔
      (∃ m, inp.error = some m ∧ banIndicator m = true) ∧
      0 < inp.profileId ∧ inp.hasToken = true ∧ inp.logErrorThrows = false) := by
  unfold completeSession completeSessionBody
  cases herr : inp.error with
  | none =>
      simp only [herr, Option.isSome_none, Bool.false_and, Bool.if_false_left]
      split_ifs <;> simp_all
  | some m =>
      simp only [herr, Option.isSome_some, Bool.true_and]
      split_ifs <;> simp_all
      intro hb
      rename_i himp
      cases htok : inp.hasToken with
      | false => rfl
      | true => exact absurd (himp htok) (by simp [hb])

theorem foldl_pick_mem (l : List ProfileRecord) :
    ∀ acc q, l.foldl
        (fun best p =>
          match best with
          | none => some p
          | some b => if b.createdAt < p.createdAt then some p else some b) acc = some q →
      acc = some q ∨ q ∈ l := by
  induction l with
  | nil => intro acc q h; exact Or.inl h
  | cons x xs ih =>
      intro acc q h
      rcases ih _ q h with h1 | h2
      · cases acc with
        | none =>
            simp only at h1
            cases h1
            exact Or.inr (List.mem_cons_self _ _)
        | some b =>
            simp only at h1
            by_cases hc : b.createdAt < x.createdAt
            · rw [if_pos hc] at h1
              cases h1
              exact Or.inr (List.mem_cons_self _ _)
            · rw [if_neg hc] at h1
              exact Or.inl h1
      · exact Or.inr (List.mem_cons_of_mem _ h2)

theorem mostRecentProfile_mem (db : ProfilesDb) (acct : Nat) (p : ProfileRecord)
    (h : mostRecentProfile db acct = some p) : p ∈ db.profiles := by
  unfold mostRecentProfile at h
  rcases foldl_pick_mem _ none p h with h1 | h2
  · exact absurd h1 (by simp)
  · exact List.mem_of_mem_filter h2

theorem ensure_cases (env : GoLoginEnv) (acct : Nat) (db : ProfilesDb) :
    (∃ q, firstActiveProfile db acct = some q ∧ ensureProfileForUser env acct db = (q, db)) ∨
    (firstActiveProfile db acct = none ∧
      ∃ newP, ensureProfileForUser env acct db =
          (newP, ⟨db.profiles ++ [newP], db.nextId + 1, db.now + 1⟩) ∧
        newP.id = db.nextId ∧ newP.status = ProfileStatus.ACTIVE ∧
        newP.createdAt = db.now) := by
  cases h : firstActiveProfile db acct with
  | some q => exact Or.inl ⟨q, rfl, by unfold ensureProfileForUser; rw [h]⟩
  | none =>
      refine Or.inr ⟨rfl, ?_⟩
      unfold ensureProfileForUser
      rw [h]
      exact ⟨_, rfl, rfl, rfl, rfl⟩

theorem firstActive_props (db : ProfilesDb) (acct : Nat) (q : ProfileRecord)
    (h : firstActiveProfile db acct = some q) :
    q ∈ db.profiles ∧ q.status = ProfileStatus.ACTIVE := by
  unfold firstActiveProfile at h
  refine ⟨List.mem_of_find?_eq_some h, ?_⟩
  have := List.find?_some h
  simp at this
  exact this.2

/-- C5 counterexample: for an account whose most recent profile is BANNED but
which still has an older ACTIVE record, `getValidProfileForUser` returns that
pre-existing record and creates nothing — contradicting "returns an ACTIVE
record obtained by creating a replacement". -/
theorem C5_counterexample :
    (mostRecentProfile dbBanned 7).map ProfileRecord.status = some ProfileStatus.BANNED ∧
    (getValidProfileForUser envDefault 7 dbBanned).1 ∈ dbBanned.profiles ∧
    (getValidProfileForUser envDefault 7 dbBanned).2 = dbBanned := by
  refine ⟨by decide, by decide, by decide⟩

/-- C5 (amended): when the most recently created profile of an account is
BANNED or DELETED, `getValidProfileForUser` never returns that record and
never changes its status; it returns an ACTIVE record — the account's
existing ACTIVE record if one exists, otherwise a newly created ACTIVE
replacement. -/
theorem C5_banned_rotation (env : GoLoginEnv) (acct : Nat) (db : ProfilesDb)
    (p : ProfileRecord) (hwf : ProfilesDbWF db)
    (hmr : mostRecentProfile db acct = some p)
    (hst : p.status = ProfileStatus.BANNED ∨ p.status = ProfileStatus.DELETED) :
    (getValidProfileForUser env acct db).1.status = ProfileStatus.ACTIVE ∧
    (getValidProfileForUser env acct db).1.id ≠ p.id ∧
    (∀ r ∈ (getValidProfileForUser env acct db).2.profiles,
      r.id = p.id → r.status = p.status) ∧
    ((getValidProfileForUser env acct db).1 ∈ db.profiles ∧
        (getValidProfileForUser env acct db).2 = db ∨
      (getValidProfileForUser env acct db).1 ∉ db.profiles ∧
        (getValidProfileForUser env acct db).2.profiles =
          db.profiles ++ [(getValidProfileForUser env acct db).1]) := by
  have hpmem : p ∈ db.profiles := mostRecentProfile_mem db acct p hmr
  have hinj : ∀ x ∈ db.profiles, ∀ y ∈ db.profiles, x.id = y.id → x = y := by
    intro x hx y hy hxy
    exact List.inj_on_of_nodup_map hwf.2 hx hy hxy
  have hval : getValidProfileForUser env acct db = ensureProfileForUser env acct db := by
    unfold getValidProfileForUser
    rw [hmr]
    rcases hst with h | h <;> simp [h]
  rw [hval]
  rcases ensure_cases env acct db with ⟨q, hq, heq⟩ | ⟨_, newP, heq, hid, hstat, _⟩
  · rw [heq]
    obtain ⟨hqmem, hqact⟩ := firstActive_props db acct q hq
    have hqp : q.id ≠ p.id := by
      intro hbad
      have : q = p := hinj q hqmem p hpmem hbad
      rcases hst with h | h <;> rw [this, h] at hqact <;> exact absurd hqact (by simp)
    refine ⟨hqact, hqp, ?_, Or.inl ⟨hqmem, rfl⟩⟩
    intro r hr hrid
    have : r = p := hinj r hr p hpmem hrid
    rw [this]
  · rw [heq]
    have hple : p.id < db.nextId := hwf.1 p hpmem
    have hnew_notin : newP ∉ db.profiles := by
      intro hbad
      have := hwf.1 newP hbad
      omega
    refine ⟨hstat, by rw [hid]; omega, ?_, Or.inr ⟨hnew_notin, rfl⟩⟩
    intro r hr hrid
    rcases List.mem_append.mp hr with h1 | h1
    · have : r = p := hinj r h1 p hpmem hrid
      rw [this]
    · simp at h1
      rw [h1] at hrid
      rw [hid] at hrid
      omega

/-- Witness for C5 at a concrete input: account 7 of `dbBanned`, whose most
recent profile is BANNED. -/
theorem C5_banned_rotation_witness :
    (getValidProfileForUser envDefault 7 dbBanned).1.status = ProfileStatus.ACTIVE ∧
    (getValidProfileForUser envDefault 7 dbBanned).1.id ≠ profBanned.id ∧
    (∀ r ∈ (getValidProfileForUser envDefault 7 dbBanned).2.profiles,
      r.id = profBanned.id → r.status = profBanned.status) ∧
    ((getValidProfileForUser envDefault 7 dbBanned).1 ∈ dbBanned.profiles ∧
        (getValidProfileForUser envDefault 7 dbBanned).2 = dbBanned ∨
      (getValidProfileForUser envDefault 7 dbBanned).1 ∉ dbBanned.profiles ∧
        (getValidProfileForUser envDefault 7 dbBanned).2.profiles =
          dbBanned.profiles ++ [(getValidProfileForUser envDefault 7 dbBanned).1]) :=
  C5_banned_rotation envDefault 7 dbBanned profBanned (by constructor <;> decide)
    (by decide) (Or.inl rfl)

/-- C6: the code violates the claim — for an account whose most recent
profile record is EXPIRED, `getValidProfileForUser` falls through its status
checks and returns the EXPIRED record itself, creating no ACTIVE
replacement. -/
theorem C6_expired_returned :
    (mostRecentProfile dbExpired 7).map ProfileRecord.status = some ProfileStatus.EXPIRED ∧
    (getValidProfileForUser envDefault 7 dbExpired).1.status = ProfileStatus.EXPIRED ∧
    (getValidProfileForUser envDefault 7 dbExpired).1 = profExpired ∧
    (getValidProfileForUser envDefault 7 dbExpired).2 = dbExpired := by
  refine ⟨by decide, by decide, by decide, by decide⟩

theorem monitorBreak_iff (startedAt t : Nat) :
    monitorBreak (durationCheckAt startedAt t) = true ↔
      900 < elapsedSeconds startedAt t := by
  unfold monitorBreak durationCheckAt
  unfold MIN_SESSION_DURATION_MS MAX_SESSION_DURATION_MS
  simp only [Bool.and_eq_true, Bool.not_eq_true', Bool.and_eq_false_iff,
    decide_eq_false_iff_not, decide_eq_true_eq, not_le]
  norm_num
  omega

theorem monitorGo_spec (S W : Nat) :
    ∀ n e, e ≤ MAX_SESSION_DURATION_MS → 60000 ∣ e →
      MAX_SESSION_DURATION_MS - e ≤ n →
      (monitorGo S W e = MAX_SESSION_DURATION_MS ∨
        (MIN_SESSION_DURATION_MS ≤ monitorGo S W e ∧
          monitorGo S W e < MAX_SESSION_DURATION_MS ∧
          monitorBreak (durationCheckAt S (W + monitorGo S W e)) = true)) := by
  intro n
  induction n with
  | zero =>
      intro e he hdvd hn
      have heq : e = MAX_SESSION_DURATION_MS := by omega
      rw [monitorGo]
      rw [if_neg (by omega)]
      exact Or.inl heq
  | succ n ih =>
      intro e he hdvd hn
      by_cases hlt : e < MAX_SESSION_DURATION_MS
      · rw [monitorGo, if_pos hlt]
        by_cases hbr : (MIN_SESSION_DURATION_MS ≤ e &&
            monitorBreak (durationCheckAt S (W + e))) = true
        · rw [if_pos hbr]
          simp only [Bool.and_eq_true, decide_eq_true_eq] at hbr
          exact Or.inr ⟨hbr.1, hlt, hbr.2⟩
        · rw [if_neg hbr]
          have h60 : (60000 : Nat) ∣ e + 60000 := by
            exact Nat.dvd_add hdvd (by norm_num)
          have hle : e + 60000 ≤ MAX_SESSION_DURATION_MS := by
            unfold MAX_SESSION_DURATION_MS at *
            omega
          exact ih (e + 60000) hle h60 (by omega)
      · rw [monitorGo, if_neg hlt]
        exact Or.inl (by omega)

theorem elapsedSeconds_of_le (startedAt now : Nat) (h : startedAt ≤ now) :
    elapsedSeconds startedAt now = Int.ofNat ((now - startedAt) / 1000) := by
  unfold elapsedSeconds
  have h1 : Int.ofNat now - Int.ofNat startedAt = Int.ofNat (now - startedAt) := by
    simp only [Int.ofNat_eq_coe]
    omega
  rw [h1]
  show (Int.ofNat (now - startedAt)).fdiv (Int.ofNat 1000) = Int.ofNat ((now - startedAt) / 1000)
  cases now - startedAt with
  | zero => rfl
  | succ k => rfl

/-- Shared evaluation: with the session and the worker clock starting
together, the loop never breaks early and exits at 900000 ms. -/
theorem monitorGo_zero : monitorGo 0 0 0 = MAX_SESSION_DURATION_MS := by
  rcases monitorGo_spec 0 0 MAX_SESSION_DURATION_MS 0 (by norm_num [MAX_SESSION_DURATION_MS])
      ⟨0, by norm_num⟩ (by omega) with h | ⟨_, hlt, hbr⟩
  · exact h
  · exfalso
    rw [monitorBreak_iff] at hbr
    rw [elapsedSeconds_of_le 0 (0 + monitorGo 0 0 0) (by omega)] at hbr
    unfold MAX_SESSION_DURATION_MS at hlt
    have h2 : (0 + monitorGo 0 0 0 - 0) / 1000 ≤ 899 := by omega
    rw [Int.ofNat_eq_coe] at hbr
    omega

theorem monitorAndEnd_found (db : SessionsDb) (sid : Nat) (W : Nat) (s : Session)
    (h : findSession db sid = some s) :
    monitorAndEnd db sid W = Except.ok (monitorGo s.started_at W 0,
      applyUpdate s SessionStatus.completed (some (W + monitorGo s.started_at W 0)),
      ⟨db.sessions.map (fun t =>
          if t.id == sid then
            applyUpdate s SessionStatus.completed (some (W + monitorGo s.started_at W 0))
          else t),
        db.nextId⟩) := by
  unfold monitorAndEnd endSession getSession
  rw [h]
  simp only [Bind.bind, Except.bind]
  rw [updateSessionStatus_found db sid SessionStatus.completed _ s h]

/-- C3 counterexample: with the session's recorded start equal to the
worker's loop start, the first guardrail observation after the minimum — at
480000 ms, i.e. elapsed 480 s ∈ [480, 900] — is valid, yet the loop does not
exit there; it runs to the 900000 ms ceiling. -/
theorem C3_counterexample :
    (durationCheckAt 0 480000).isValid = true ∧
    monitorGo 0 0 0 ≠ 480000 ∧
    monitorGo 0 0 0 = 900000 := by
  refine ⟨by decide, ?_, ?_⟩
  · rw [monitorGo_zero]; unfold MAX_SESSION_DURATION_MS; omega
  · rw [monitorGo_zero]; norm_num [MAX_SESSION_DURATION_MS]

/-- C3 (amended): the monitor loop exits when the worker-measured elapsed
time reaches the 900000 ms ceiling, or earlier only when — after the
480000 ms minimum has passed — the guardrail reports an elapsed duration
strictly greater than 900 s (possible only when the session's recorded start
predates the worker's loop start); a guardrail observation within [480, 900]
seconds never ends the loop, and on exit the session is ended with status
`completed`. -/
theorem C3_monitor_loop (S W : Nat) (db : SessionsDb) (sid : Nat) :
    (monitorGo S W 0 = MAX_SESSION_DURATION_MS ∨
      (MIN_SESSION_DURATION_MS ≤ monitorGo S W 0 ∧
        monitorGo S W 0 < MAX_SESSION_DURATION_MS ∧
        900 < elapsedSeconds S (W + monitorGo S W 0))) ∧
    ((durationCheckAt S (W + monitorGo S W 0)).isValid = true →
      monitorGo S W 0 = MAX_SESSION_DURATION_MS) ∧
    (∀ x s' db', monitorAndEnd db sid W = Except.ok (x, s', db') →
      s'.status = SessionStatus.completed) := by
  have hspec := monitorGo_spec S W MAX_SESSION_DURATION_MS 0
    (by norm_num [MAX_SESSION_DURATION_MS]) ⟨0, by norm_num⟩ (by omega)
  have hmain : monitorGo S W 0 = MAX_SESSION_DURATION_MS ∨
      (MIN_SESSION_DURATION_MS ≤ monitorGo S W 0 ∧
        monitorGo S W 0 < MAX_SESSION_DURATION_MS ∧
        900 < elapsedSeconds S (W + monitorGo S W 0)) := by
    rcases hspec with h | ⟨h1, h2, h3⟩
    · exact Or.inl h
    · exact Or.inr ⟨h1, h2, (monitorBreak_iff S _).mp h3⟩
  refine ⟨hmain, ?_, ?_⟩
  · intro hvalid
    rcases hmain with h | ⟨_, _, h3⟩
    · exact h
    · exfalso
      unfold durationCheckAt MIN_SESSION_DURATION_MS MAX_SESSION_DURATION_MS at hvalid
      simp only [Bool.and_eq_true, decide_eq_true_eq] at hvalid
      have h2 := hvalid.2
      norm_num at h2
      omega
  · intro x s' db' h
    cases hf : findSession db sid with
    | none =>
        exfalso
        unfold monitorAndEnd getSession at h
        rw [hf] at h
        simp [Bind.bind, Except.bind] at h
    | some s =>
        rw [monitorAndEnd_found db sid W s hf] at h
        cases h
        rfl

/-- Witness for C3 at a concrete input: the monitor phase on `dbRunning`
completes session 1. -/
theorem C3_monitor_loop_witness :
    (applyUpdate sessionRunning SessionStatus.completed
        (some (0 + MAX_SESSION_DURATION_MS))).status = SessionStatus.completed :=
  (C3_monitor_loop 0 0 dbRunning 1).2.2 MAX_SESSION_DURATION_MS _ _ (by
    rw [monitorAndEnd_found dbRunning 1 0 sessionRunning rfl]
    rw [show sessionRunning.started_at = 0 from rfl, monitorGo_zero])

theorem findExplicitTarget_cons_stop (n : Nat) (r : StepResult) (rest : StepResultMap)
    (cur : Nat) (kind : ResultKind) (idx : Nat) (hc : cur ≤ n) :
    findExplicitTarget ((n, r) :: rest) cur kind idx = none := by
  conv_lhs => unfold findExplicitTarget
  rw [if_pos hc]

theorem findExplicitTarget_cons_go (n : Nat) (r : StepResult) (rest : StepResultMap)
    (cur : Nat) (kind : ResultKind) (idx : Nat) (hlt : ¬ cur ≤ n) :
    findExplicitTarget ((n, r) :: rest) cur kind idx =
      match entryHit kind idx r with
      | some e => some e
      | none => findExplicitTarget rest cur kind idx := by
  conv_lhs => unfold findExplicitTarget
  rw [if_neg hlt]

theorem findExplicitTarget_eq_filter (entries : StepResultMap) (cur : Nat)
    (kind : ResultKind) (idx : Nat)
    (h : entries.Pairwise (fun a b => a.1 < b.1)) :
    findExplicitTarget entries cur kind idx =
      (entries.filter (fun e => e.1 < cur)).findSome?
        (fun e => entryHit kind idx e.2) := by
  induction entries with
  | nil => rfl
  | cons e rest ih =>
      obtain ⟨n, r⟩ := e
      rw [List.pairwise_cons] at h
      by_cases hc : cur ≤ n
      · have hrest : rest.filter (fun e => e.1 < cur) = [] := by
          rw [List.filter_eq_nil]
          intro a ha
          have := h.1 a ha
          simp only [decide_eq_true_eq]
          omega
        rw [findExplicitTarget_cons_stop n r rest cur kind idx hc]
        rw [show ((n, r) :: rest).filter (fun e => e.1 < cur) =
            rest.filter (fun e => e.1 < cur) from by
          rw [List.filter_cons_of_neg]
          simp
          omega]
        rw [hrest]
        rfl
      · rw [findExplicitTarget_cons_go n r rest cur kind idx hc]
        rw [show ((n, r) :: rest).filter (fun e => e.1 < cur) =
            (n, r) :: rest.filter (fun e => e.1 < cur) from by
          rw [List.filter_cons_of_pos]
          simp
          omega]
        rw [List.findSome?_cons]
        rw [ih h.2]
        cases entryHit kind idx r <;> rfl

/-- C4: on a StepResultMap in ascending key order, `getStepTarget` implements
exactly the specification's two-tier resolution (explicit indexed reference
over entries with step numbers strictly below the current step, in ascending
order, then most-recent-fallback); and on the map
`{1: {posts:[A,B]}, 3: {comments:[C]}}` with a step numbered 4,
`search_results[1]` resolves to B, `comments[0]` resolves to C, and an
out-of-range index falls through to the fallback rule (yielding the most
recent prior post A). -/
theorem C4_target_resolution (entries : StepResultMap) (step : InteractionFlowStep)
    (isComment : Bool) (h : entries.Pairwise (fun a b => a.1 < b.1)) :
    getStepTarget entries step isComment = specResolveTarget entries step isComment ∧
    getStepTarget exampleEntries (step4With "search_results[1]") false =
      some (Entity.post postB) ∧
    getStepTarget exampleEntries (step4With "comments[0]") false =
      some (Entity.comment commentC) ∧
    getStepTarget exampleEntries (step4With "search_results[5]") false =
      fallbackTarget exampleEntries false ∧
    fallbackTarget exampleEntries false = some (Entity.post postA) := by
  refine ⟨?_, by decide, by decide, by decide, by decide⟩
  unfold getStepTarget specResolveTarget
  cases step.target with
  | none => rfl
  | some t =>
      dsimp only
      by_cases ht : (t == "") = true
      · rw [if_pos ht, if_pos ht]
      · rw [if_neg ht, if_neg ht]
        cases hp : parseTarget t with
        | none => rfl
        | some ki =>
            obtain ⟨kind, idx⟩ := ki
            dsimp only
            rw [findExplicitTarget_eq_filter entries step.step kind idx h]

/-- Witness for C4 at a concrete input: the example map is in ascending key
order, and the code's resolution agrees with the specification's on it. -/
theorem C4_target_resolution_witness :
    getStepTarget exampleEntries (step4With "comments[0]") false =
      specResolveTarget exampleEntries (step4With "comments[0]") false :=
  (C4_target_resolution exampleEntries (step4With "comments[0]") false (by decide)).1

theorem recordInteraction_attempted (env : Nat → StepEnv) (stepNum : Nat)
    (action : StepAction) (entityType : EntityType) (r : InteractionResult)
    (commentText : Option String) (st st' : ExecState)
    (h : recordInteraction env stepNum action entityType r commentText st =
      Except.ok st') : st'.attempted = st.attempted := by
  unfold recordInteraction at h
  split at h
  · cases h; rfl
  · exact absurd h (by simp)

theorem executeStepBody_attempted (env : Nat → StepEnv) (step : InteractionFlowStep)
    (st st' : ExecState) (h : executeStepBody env step st = Except.ok st') :
    st'.attempted = st.attempted := by
  obtain ⟨num, action, et, q, tg, gc⟩ := step
  cases action with
  | search =>
      unfold executeStepBody executeSearchStep at h
      dsimp only at h
      by_cases hq : (!optTruthy q) = true
      · rw [if_pos hq] at h
        exact absurd h (by simp)
      · rw [if_neg hq] at h
        cases hs : (env num).searchRes (q.getD "") with
        | error e =>
            rw [hs] at h
            simp [Bind.bind, Except.bind] at h
        | ok posts =>
            rw [hs] at h
            simp only [Bind.bind, Except.bind] at h
            cases h
            rfl
  | like =>
      unfold executeStepBody executeLikeStep at h
      dsimp only at h
      cases ht : getStepTarget st.stepResults
          ⟨num, StepAction.like, et, q, tg, gc⟩ false with
      | none =>
          rw [ht] at h
          simp at h
      | some target =>
          rw [ht] at h
          simp only [Bind.bind, Except.bind] at h
          cases hs : (env num).actionRes target.url with
          | error e => rw [hs] at h; simp at h
          | ok r =>
              rw [hs] at h
              exact recordInteraction_attempted _ _ _ _ _ _ _ _ h
  | comment =>
      unfold executeStepBody executeCommentStep at h
      dsimp only at h
      cases ht : getStepTarget st.stepResults
          ⟨num, StepAction.comment, et, q, tg, gc⟩ false with
      | none =>
          rw [ht] at h
          simp at h
      | some target =>
          rw [ht] at h
          cases hgc : gc with
          | none => rw [hgc] at h; simp at h
          | some b =>
              rw [hgc] at h
              cases b with
              | false => simp at h
              | true =>
                  simp only [Bind.bind, Except.bind] at h
                  cases hg : (env num).genRes target.content with
                  | error e => rw [hg] at h; simp at h
                  | ok text =>
                      rw [hg] at h
                      cases hs : (env num).actionRes target.url with
                      | error e => rw [hs] at h; simp at h
                      | ok r =>
                          rw [hs] at h
                          exact recordInteraction_attempted _ _ _ _ _ _ _ _ h
  | reply =>
      unfold executeStepBody executeReplyStep at h
      dsimp only at h
      cases ht : getStepTarget st.stepResults
          ⟨num, StepAction.reply, et, q, tg, gc⟩ true with
      | none =>
          rw [ht] at h
          simp at h
      | some target =>
          rw [ht] at h
          cases hgc : gc with
          | none => rw [hgc] at h; simp at h
          | some b =>
              rw [hgc] at h
              cases b with
              | false => simp at h
              | true =>
                  simp only [Bind.bind, Except.bind] at h
                  cases hg : (env num).genRes target.content with
                  | error e => rw [hg] at h; simp at h
                  | ok text =>
                      rw [hg] at h
                      cases hs : (env num).actionRes target.url with
                      | error e => rw [hs] at h; simp at h
                      | ok r =>
                          rw [hs] at h
                          exact recordInteraction_attempted _ _ _ _ _ _ _ _ h
  | report =>
      unfold executeStepBody executeReportStep at h
      dsimp only at h
      cases ht : getStepTarget st.stepResults
          ⟨num, StepAction.report, et, q, tg, gc⟩ false with
      | none =>
          rw [ht] at h
          simp at h
      | some target =>
          rw [ht] at h
          simp only [Bind.bind, Except.bind] at h
          cases hs : (env num).actionRes target.url with
          | error e => rw [hs] at h; simp at h
          | ok r =>
              rw [hs] at h
              exact recordInteraction_attempted _ _ _ _ _ _ _ _ h

theorem executeStep_attempted (env : Nat → StepEnv) (step : InteractionFlowStep)
    (st : ExecState) :
    (executeStep env step st).attempted = st.attempted ++ [step.step] := by
  unfold executeStep
  dsimp only
  cases hb : executeStepBody env step
      { st with attempted := st.attempted ++ [step.step] } with
  | ok st' => exact executeStepBody_attempted env step _ st' hb
  | error e => rfl

theorem runFlow_attempted (env : Nat → StepEnv) (flow : List InteractionFlowStep) :
    ∀ st : ExecState,
      (runFlow env flow st).attempted = st.attempted ++ flow.map (fun s => s.step) := by
  induction flow with
  | nil => intro st; simp [runFlow]
  | cons s rest ih =>
      intro st
      show (runFlow env rest (executeStep env s st)).attempted = _
      rw [ih (executeStep env s st), executeStep_attempted env s st]
      simp

/-- C7: the step interpreter reaches every step of a scenario regardless of
earlier step failures (a caught exception leaves the remaining steps to run);
and on the flow `[search(ok), like(fails), comment(ok)]`, steps 1 and 3
complete (the search populates the result map and the comment succeeds) while
exactly one failed Interaction is recorded, for step 2. -/
theorem C7_step_isolation :
    (∀ env flow (st : ExecState),
      (runFlow env flow st).attempted = st.attempted ++ flow.map (fun s => s.step)) ∧
    (executeScenarioSteps exampleEnv exampleFlow).stepResults =
      [(1, { posts := some [postP], comments := none })] ∧
    (executeScenarioSteps exampleEnv exampleFlow).interactions =
      [{ action := StepAction.like, entityType := EntityType.post, success := false,
         errorMessage := some "element not found", commentText := none, stepSequence := 2 },
       { action := StepAction.comment, entityType := EntityType.post, success := true,
         errorMessage := none, commentText := some "nice post", stepSequence := 3 }] ∧
    ((executeScenarioSteps exampleEnv exampleFlow).interactions.filter
        (fun r => r.stepSequence == 2 && !r.success)).length = 1 := by
  refine ⟨fun env flow st => runFlow_attempted env flow st, ?_, ?_, ?_⟩ <;> rfl

theorem seqCheck_iff : ∀ (l : List Nat) (i : Nat),
    seqCheck i l = true ↔ l = List.range' (i + 1) l.length := by
  intro l
  induction l with
  | nil => intro i; simp [seqCheck]
  | cons x xs ih =>
      intro i
      show (x == i + 1 && seqCheck (i + 1) xs) = true ↔ _
      rw [List.length_cons, List.range'_succ]
      constructor
      · intro h
        rw [Bool.and_eq_true] at h
        have hx : x = i + 1 := by simpa using h.1
        have hxs := (ih (i + 1)).mp h.2
        rw [hx, ← hxs]
      · intro h
        injection h with h1 h2
        rw [Bool.and_eq_true, h1]
        exact ⟨by simp, (ih (i + 1)).mpr h2⟩

theorem validateSteps_ok_iff : ∀ flow : List InteractionFlowStep,
    validateSteps flow = Except.ok () ↔ ∀ s ∈ flow, validateStep s = Except.ok () := by
  intro flow
  induction flow with
  | nil => simp [validateSteps]
  | cons s rest ih =>
      show (do validateStep s; validateSteps rest) = Except.ok () ↔ _
      cases hv : validateStep s with
      | error e =>
          simp only [hv, Bind.bind, Except.bind]
          constructor
          · intro h; exact absurd h (by simp)
          · intro h
            have := h s (List.mem_cons_self _ _)
            rw [hv] at this
            exact absurd this (by simp)
      | ok u =>
          cases u
          simp only [hv, Bind.bind, Except.bind]
          rw [ih]
          constructor
          · intro h t ht
            rcases List.mem_cons.mp ht with h1 | h1
            · rw [h1]; exact hv
            · exact h t h1
          · intro h t ht
            exact h t (List.mem_cons_of_mem _ ht)

theorem validateStep_ok_iff (s : InteractionFlowStep) :
    validateStep s = Except.ok () ↔
      ((s.action = StepAction.search → optTruthy s.query = true) ∧
       ((s.action = StepAction.like ∨ s.action = StepAction.comment ∨
         s.action = StepAction.reply ∨ s.action = StepAction.report) →
         (optTruthy s.target = true ∨ s.entity_type.isSome = true)) ∧
       (s.action = StepAction.reply → s.entity_type.isSome = true)) := by
  obtain ⟨num, action, et, q, tg, gc⟩ := s
  cases action <;>
    · unfold validateStep
      dsimp only
      cases htg : optTruthy tg <;> cases hq : optTruthy q <;> cases et <;>
        split_ifs <;> simp_all [Option.isSome_iff_ne_none]

theorem sorted_range'_le (b n : Nat) : List.Sorted (· ≤ ·) (List.range' b n) := by
  induction n generalizing b with
  | zero => exact List.sorted_nil
  | succ n ih =>
      rw [List.range'_succ]
      rw [List.sorted_cons]
      refine ⟨?_, ih (b + 1)⟩
      intro x hx
      have := List.mem_range'_1.mp hx
      omega

theorem sortedSteps_eq_iff (l : List Nat) :
    l.insertionSort (· ≤ ·) = List.range' 1 l.length ↔
      List.Perm l (List.range' 1 l.length) := by
  constructor
  · intro h
    have hperm := (List.perm_insertionSort (· ≤ ·) l).symm
    rw [h] at hperm
    exact hperm
  · intro h
    refine List.eq_of_perm_of_sorted ?_ (List.sorted_insertionSort (· ≤ ·) l)
      (sorted_range'_le 1 l.length)
    exact (List.perm_insertionSort (· ≤ ·) l).trans h

/-- C9: `validateInteractionFlow` succeeds exactly when the step numbers are
the contiguous sequence `1..N` (no gaps or duplicates — equivalently, a
permutation of `[1..N]`), every search step has a (truthy) query, every
like/comment/reply/report step has an explicit target or an entity type, and
every reply step has an entity type; the zod schema's step-positivity is
subsumed by the contiguity condition in this typed model. -/
theorem C9_validate_flow (flow : List InteractionFlowStep) (platform : Platform) :
    validateInteractionFlow flow platform = Except.ok () ↔ claimFlowOk flow := by
  unfold validateInteractionFlow claimFlowOk
  by_cases hschema : schemaOk flow
  · rw [if_neg (by simp [hschema])]
    by_cases hseq : seqCheck 0 ((flow.map (fun s => s.step)).insertionSort (· ≤ ·)) = true
    · rw [if_neg (by simp [hseq])]
      have hlen : ((flow.map (fun s => s.step)).insertionSort (· ≤ ·)).length =
          flow.length := by
        rw [(List.perm_insertionSort (· ≤ ·) (flow.map (fun s => s.step))).length_eq]
        exact List.length_map _ _
      have hperm : List.Perm (flow.map (fun s => s.step))
          (List.range' 1 flow.length) := by
        have h0 := (seqCheck_iff _ 0).mp hseq
        rw [hlen] at h0
        have h1 : (flow.map (fun s => s.step)).insertionSort (· ≤ ·) =
            List.range' 1 (flow.map (fun s => s.step)).length := by
          rw [List.length_map]
          exact h0
        have h2 := (sortedSteps_eq_iff _).mp h1
        rw [List.length_map] at h2
        exact h2
      rw [validateSteps_ok_iff]
      constructor
      · intro h
        refine ⟨hperm, ?_⟩
        intro s hs
        exact (validateStep_ok_iff s).mp (h s hs)
      · intro h s hs
        exact (validateStep_ok_iff s).mpr (h.2 s hs)
    · rw [if_pos (by simp [hseq])]
      constructor
      · intro h; exact absurd h (by simp)
      · intro h
        exfalso
        apply hseq
        have hlen : ((flow.map (fun s => s.step)).insertionSort (· ≤ ·)).length =
            flow.length := by
          rw [(List.perm_insertionSort (· ≤ ·) (flow.map (fun s => s.step))).length_eq]
          exact List.length_map _ _
        rw [seqCheck_iff, hlen]
        have h1 := (sortedSteps_eq_iff (flow.map (fun s => s.step))).mpr
          (by rw [List.length_map]; exact h.1)
        rw [List.length_map] at h1
        exact h1
  · rw [if_pos (by simp [hschema])]
    constructor
    · intro h; exact absurd h (by simp)
    · intro h
      exfalso
      apply hschema
      unfold schemaOk
      rw [List.all_eq_true]
      intro s hs
      have hmem : s.step ∈ flow.map (fun t => t.step) := List.mem_map_of_mem _ hs
      have := h.1.mem_iff.mp hmem
      have hr := List.mem_range'_1.mp this
      simpa using hr.1

end SocialStorm
